import Mathlib

/-
Verification development for the falling-banana arcade game (src/main.js).

The simulation core is shallowly embedded over ℚ (JS numbers on the values
this program manipulates behave as exact rationals for every operation used
here: +, *, /2, comparisons on small dyadic/decimal constants).  Stateful JS
code becomes explicit state passing.  The obstacle array is represented
newest-first, matching the backwards iteration order of `updateObstacles`
and `checkCollision` (JS pushes new obstacles at the end and both loops run
from the last index down, so the head of our list is the first obstacle
each scan examines).  The two particle pools are represented by their sizes:
no claim refers to individual particle kinematics, only to bursts being
created and pools being emptied.  Randomness is passed in as explicit
oracle arguments (candidate positions, speeds, variant flags, the deletion
index of the spawner correction step).
-/

/-! ## Constants (src/main.js lines 24-64) -/

def canvasWidth : ℚ := 800

def canvasHeight : ℚ := 600

def playerWidth : ℚ := 70

def playerHeight : ℚ := 45

def playerSpeed : ℚ := 6

def playerStartX : ℚ := canvasWidth / 2 - 35

def playerY : ℚ := canvasHeight - 120

def padding : ℚ := 8

def minGap : ℚ := 70

def bananaWidth : ℚ := 30

def bananaHeight : ℚ := 20

def bonusParticleCount : ℕ := 20

def explosionParticleCount : ℕ := 60

def explosionSmokeCount : ℕ := 20

/-! ## Falling objects (src/main.js lines 200-213, 254-282) -/

structure Obstacle where
  x : ℚ
  y : ℚ
  width : ℚ
  height : ℚ
  speed : ℚ
  originalSpeed : ℚ
  isBonus : Bool
  hasTransformed : Bool
  isGrowing : Bool
  scale : ℚ
  targetScale : ℚ
  rotation : ℚ
deriving DecidableEq

/-- Obstacle creation, src/main.js lines 200-213.  `x`, `speed`, the variant
flags and `rotation` are the randomly drawn values of that push. -/
def mkObstacle (x speed : ℚ) (isBonus isGrowing : Bool) (rotation : ℚ) : Obstacle :=
  { x := x, y := -20, width := bananaWidth, height := bananaHeight,
    speed := speed, originalSpeed := speed, isBonus := isBonus,
    hasTransformed := false, isGrowing := isGrowing,
    scale := 3 / 2, targetScale := 9 / 2, rotation := rotation }

/-- One obstacle's share of a tick of `updateObstacles`, src/main.js
lines 256-275: fall, bonus ripening at half height, growing transform at a
third of the height (halving the speed), then gradual scale growth. -/
def stepObstacle (o : Obstacle) : Obstacle :=
  let o1 := { o with y := o.y + o.speed }
  let o2 :=
    if o1.isBonus = true ∧ o1.hasTransformed = false ∧ canvasHeight / 2 ≤ o1.y then
      { o1 with hasTransformed := true }
    else o1
  let o3 :=
    if o2.isGrowing = true ∧ o2.hasTransformed = false ∧ canvasHeight / 3 ≤ o2.y then
      { o2 with hasTransformed := true, speed := o2.originalSpeed * (1 / 2) }
    else o2
  if o3.isGrowing = true ∧ o3.hasTransformed = true ∧ o3.scale < o3.targetScale then
    let grown := o3.scale + 3 / 100
    { o3 with scale := if o3.targetScale < grown then o3.targetScale else grown }
  else o3

/-- Iterated obstacle ticks (observation points of one obstacle's life). -/
def stepsObstacle : ℕ → Obstacle → Obstacle
  | 0, o => o
  | n + 1, o => stepObstacle (stepsObstacle n o)

/-- The per-obstacle loop of `updateObstacles`, src/main.js lines 255-282:
every obstacle advances, and an obstacle whose `y` exceeds the canvas
height is removed, awarding 10 points.  Returns the surviving obstacles and
the score gained. -/
def updateObstaclesList : List Obstacle → List Obstacle × ℕ
  | [] => ([], 0)
  | o :: rest =>
    let r := updateObstaclesList rest
    let o1 := stepObstacle o
    if canvasHeight < o1.y then (r.1, r.2 + 10) else (o1 :: r.1, r.2)

/-! ## Player update (src/main.js lines 123-159) -/

/-- Resolution of the keyboard state into a horizontal velocity,
src/main.js lines 124-131 (the right-arrow branch runs second and wins). -/
def resolveKeyDx (left right : Bool) : ℚ :=
  let dx : ℚ := 0
  let dx1 := if left = true then -playerSpeed else dx
  if right = true then playerSpeed else dx1

/-- Horizontal move plus the two clamping steps of `updatePlayer`,
src/main.js lines 147-158. -/
def updatePlayerX (x dx : ℚ) : ℚ :=
  let x1 := x + dx
  let x2 := if x1 < 0 then 0 else x1
  if canvasWidth < x2 + playerWidth then canvasWidth - playerWidth else x2

/-! ## Collision detection (src/main.js lines 538-587) -/

structure Rect where
  x : ℚ
  y : ℚ
  width : ℚ
  height : ℚ
deriving DecidableEq

/-- Padded player hitbox, src/main.js lines 543-549. -/
def playerHitbox (px py : ℚ) : Rect :=
  ⟨px + padding, py + padding, playerWidth - padding * 2, playerHeight - padding * 2⟩

/-- Obstacle hitbox, src/main.js lines 551-563: scaled by the current
visual scale around the center (`obstacle.scale || 1.0` falls back to 1
when the scale is falsy, i.e. zero), then shrunk by the padding. -/
def obstacleHitbox (o : Obstacle) : Rect :=
  let scale := if o.scale = 0 then 1 else o.scale
  let scaledWidth := o.width * scale
  let scaledHeight := o.height * scale
  let offsetX := (scaledWidth - o.width) / 2
  let offsetY := (scaledHeight - o.height) / 2
  ⟨o.x - offsetX + padding, o.y - offsetY + padding,
   scaledWidth - padding * 2, scaledHeight - padding * 2⟩

/-- Axis-aligned rectangle overlap test, src/main.js lines 565-568. -/
def rectsOverlap (a b : Rect) : Bool :=
  decide (a.x < b.x + b.width) && decide (b.x < a.x + a.width) &&
  decide (a.y < b.y + b.height) && decide (b.y < a.y + a.height)

/-- Everything a `checkCollision` call does: its boolean result, the
obstacle array it leaves behind, the score it added, whether it started the
score flash, and the center of the sparkle burst it requested (if any). -/
structure CollisionOutcome where
  fatal : Bool
  obstacles : List Obstacle
  scoreGain : ℕ
  scoreFlash : Bool
  sparkleCenter : Option (ℚ × ℚ)
deriving DecidableEq

/-- The `checkCollision` scan, src/main.js lines 538-587, on the
newest-first obstacle list.  The first overlapping obstacle decides: a
transformed bonus awards 200, flashes the score, requests a sparkle burst
at its center, is removed, and the scan stops reporting no collision; any
other overlap reports a fatal collision with the array left intact. -/
def checkCollision (px py : ℚ) : List Obstacle → CollisionOutcome
  | [] => ⟨false, [], 0, false, none⟩
  | o :: rest =>
    if rectsOverlap (playerHitbox px py) (obstacleHitbox o) = true then
      if o.isBonus = true ∧ o.hasTransformed = true then
        ⟨false, rest, 200, true, some (o.x + o.width / 2, o.y + o.height / 2)⟩
      else
        ⟨true, o :: rest, 0, false, none⟩
    else
      let r := checkCollision px py rest
      ⟨r.fatal, o :: r.obstacles, r.scoreGain, r.scoreFlash, r.sparkleCenter⟩

/-! ## Game state, the collision phase of the tick, and reset
(src/main.js lines 36-60, 742-755, 906-924) -/

structure GameState where
  playerX : ℚ
  playerDx : ℚ
  animationFrame : ℚ
  obstacles : List Obstacle
  frameCount : ℕ
  gameOver : Bool
  showGameOverText : Bool
  score : ℕ
  highScore : ℕ
  scoreFlashTime : ℕ
  bonusParticles : ℕ
  explosionParticles : ℕ
deriving DecidableEq

/-- The collision phase of a playing-state tick of `gameLoop`,
src/main.js lines 911-924 together with the side effects `checkCollision`
itself performs (lines 571-580): on a fatal collision set the game-over
flag, commit the high score, and create the explosion burst; otherwise
commit whatever the scan did (bonus score, flash, sparkle burst, obstacle
removal). -/
def applyCollision (s : GameState) : GameState :=
  let r := checkCollision s.playerX playerY s.obstacles
  if r.fatal = true then
    { s with gameOver := true,
             highScore := if s.highScore < s.score then s.score else s.highScore,
             explosionParticles :=
               s.explosionParticles + (explosionParticleCount + explosionSmokeCount) }
  else
    { s with obstacles := r.obstacles,
             score := s.score + r.scoreGain,
             scoreFlashTime := if r.scoreFlash = true then 20 else s.scoreFlashTime,
             bonusParticles :=
               s.bonusParticles +
                 (if r.sparkleCenter.isSome = true then bonusParticleCount else 0) }

/-- The reset routine, src/main.js lines 742-755: player back to its
initial values, all collections cleared, score and flags cleared.  The high
score is untouched. -/
def resetGame (s : GameState) : GameState :=
  { s with playerX := canvasWidth / 2 - 35,
           playerDx := 0,
           animationFrame := 0,
           obstacles := [],
           frameCount := 0,
           score := 0,
           scoreFlashTime := 0,
           gameOver := false,
           explosionParticles := 0,
           bonusParticles := 0,
           showGameOverText := false }

/-! ## Restart control (src/main.js lines 79-105, 758-792) -/

def buttonWidth : ℚ := 250

def buttonHeight : ℚ := 60

def buttonX : ℚ := canvasWidth / 2 - buttonWidth / 2

def buttonY : ℚ := canvasHeight / 2 + 60

/-- Spatial hit test against the restart rectangle (shared by the click
listener, lines 788-789, and the touch listener, lines 92-93). -/
def insideRestartButton (cx cy : ℚ) : Bool :=
  decide (buttonX ≤ cx) && decide (cx ≤ buttonX + buttonWidth) &&
  decide (buttonY ≤ cy) && decide (cy ≤ buttonY + buttonHeight)

/-- Whether a canvas click at game coordinates issues the reset signal,
src/main.js lines 776-792: rejected outright unless the game is over. -/
def clickAcceptsReset (gameOver : Bool) (cx cy : ℚ) : Bool :=
  if gameOver = false then false
  else insideRestartButton cx cy

/-- Whether a touch at game coordinates issues the reset signal,
src/main.js lines 79-105: the restart hit test only runs when the game is
over. -/
def touchAcceptsReset (gameOver : Bool) (tx ty : ℚ) : Bool :=
  if gameOver = true then insideRestartButton tx ty
  else false

/-! ## Spawner (src/main.js lines 162-251) -/

structure SpawnPos where
  x : ℚ
  width : ℚ
deriving DecidableEq

/-- Validity of a candidate x against one already-accepted position,
src/main.js lines 181-194: no footprint overlap, and any positive gap to it
must be at least `minGap`. -/
def candidateOk (x : ℚ) (pos : SpawnPos) : Bool :=
  if x < pos.x + pos.width ∧ pos.x < x + bananaWidth then false
  else
    let leftGap := x - (pos.x + pos.width)
    let rightGap := pos.x - (x + bananaWidth)
    if (0 < leftGap ∧ leftGap < minGap) ∨ (0 < rightGap ∧ rightGap < minGap) then false
    else true

/-- The attempt loop for one banana, src/main.js lines 174-216: try the
drawn candidate x coordinates in order (up to the attempt budget, which is
the length of the oracle list) and accept the first valid one. -/
def placeOne (ps : List SpawnPos) : List ℚ → Option ℚ
  | [] => none
  | x :: rest =>
    if ps.all (fun pos => candidateOk x pos) = true then some x
    else placeOne ps rest

/-- The outer placement loop of `createObstacle`, src/main.js
lines 171-217: one attempt list per requested banana; a banana whose
attempts all fail is silently skipped. -/
def placeBatch (ps : List SpawnPos) : List (List ℚ) → List SpawnPos
  | [] => ps
  | att :: rest =>
    match placeOne ps att with
    | some x => placeBatch (ps ++ [⟨x, bananaWidth⟩]) rest
    | none => placeBatch ps rest

/-- Model of `positions.sort((a, b) => a.x - b.x)` (src/main.js line 221):
a stable comparison sort by x, realized as insertion sort. -/
def insertByX (p : SpawnPos) : List SpawnPos → List SpawnPos
  | [] => [p]
  | q :: rest => if p.x ≤ q.x then p :: q :: rest else q :: insertByX p rest

def sortByX : List SpawnPos → List SpawnPos
  | [] => []
  | p :: rest => insertByX p (sortByX rest)

/-- Adjacent-gap check of the correction step, src/main.js lines 230-233. -/
def anyMiddleGap : List SpawnPos → Bool
  | p :: q :: rest => decide (minGap ≤ q.x - (p.x + p.width)) || anyMiddleGap (q :: rest)
  | _ => false

/-- The gap verification over the sorted batch, src/main.js lines 224-237:
left edge, the gaps between consecutive positions, and the right edge. -/
def hasValidGap (ps : List SpawnPos) : Bool :=
  match ps with
  | [] => false
  | p :: rest =>
    let edgeLeft := decide (minGap ≤ p.x)
    let edgeRight :=
      match (p :: rest).getLast? with
      | some lastP => decide (minGap ≤ canvasWidth - (lastP.x + lastP.width))
      | none => false
    edgeLeft || anyMiddleGap (p :: rest) || edgeRight

/-- One full `createObstacle` invocation at the footprint level,
src/main.js lines 162-251: place the batch, then the guaranteed-gap
correction step — if the sorted batch has no valid gap and more than one
banana was placed, the banana matching the randomly chosen sorted position
is deleted (the match is by x; every obstacle of the batch has y = -20 and
batch x coordinates are distinct).  Returns the surviving batch
footprints in insertion order. -/
def spawnBatch (batches : List (List ℚ)) (removeIndex : ℕ) : List SpawnPos :=
  let ps := placeBatch [] batches
  if 0 < ps.length then
    let ss := sortByX ps
    if hasValidGap ss = false ∧ 1 < ps.length then
      match ss[removeIndex]? with
      | some removed => ps.eraseP (fun p => decide (p.x = removed.x))
      | none => ps
    else ps
  else ps

/-! ## Spec-side vocabulary for claim statements -/

/-- A position is well formed when it has the banana width and its x was
drawn inside the admissible range of line 176. -/
def goodPos (p : SpawnPos) : Prop :=
  p.width = bananaWidth ∧ 0 ≤ p.x ∧ p.x ≤ canvasWidth - bananaWidth

/-- Two footprints do not overlap (they may touch). -/
def apartPos (p q : SpawnPos) : Prop :=
  p.x + p.width ≤ q.x ∨ q.x + q.width ≤ p.x

/-! ## Concrete inputs used by scenario claims and witnesses -/

/-- The object of the spec's descent scenario (claim C2). -/
def obsC2 : Obstacle :=
  { x := 100, y := 590, width := 30, height := 20, speed := 5, originalSpeed := 5,
    isBonus := false, hasTransformed := false, isGrowing := false,
    scale := 3 / 2, targetScale := 9 / 2, rotation := 0 }

/-- A transformed bonus banana overlapping the player's start position. -/
def bC3 : Obstacle :=
  { x := 370, y := 480, width := 30, height := 20, speed := 3, originalSpeed := 3,
    isBonus := true, hasTransformed := true, isGrowing := false,
    scale := 3 / 2, targetScale := 9 / 2, rotation := 0 }

/-- A playing-state snapshot whose only obstacle is the bonus banana. -/
def sC3 : GameState :=
  { playerX := 365, playerDx := 0, animationFrame := 0, obstacles := [bC3],
    frameCount := 7, gameOver := false, showGameOverText := false, score := 30,
    highScore := 120, scoreFlashTime := 0, bonusParticles := 0,
    explosionParticles := 0 }

/-- An untransformed bonus banana overlapping the player's start position
(untransformed bonus contact is fatal). -/
def bC4 : Obstacle :=
  { x := 370, y := 480, width := 30, height := 20, speed := 3, originalSpeed := 3,
    isBonus := true, hasTransformed := false, isGrowing := false,
    scale := 3 / 2, targetScale := 9 / 2, rotation := 0 }

/-- A playing-state snapshot whose only obstacle is the fatal banana. -/
def sC4 : GameState :=
  { playerX := 365, playerDx := 0, animationFrame := 0, obstacles := [bC4],
    frameCount := 7, gameOver := false, showGameOverText := false, score := 430,
    highScore := 120, scoreFlashTime := 0, bonusParticles := 0,
    explosionParticles := 0 }

/-- A normal banana overlapping the player's start position. -/
def bC6 : Obstacle :=
  { x := 370, y := 480, width := 30, height := 20, speed := 3, originalSpeed := 3,
    isBonus := false, hasTransformed := false, isGrowing := false,
    scale := 3 / 2, targetScale := 9 / 2, rotation := 0 }

/-- The reset-scenario snapshot of claim C6: score 540, high score 300,
about to collide fatally. -/
def sC6 : GameState :=
  { playerX := 365, playerDx := 0, animationFrame := 0, obstacles := [bC6],
    frameCount := 7, gameOver := false, showGameOverText := false, score := 540,
    highScore := 300, scoreFlashTime := 5, bonusParticles := 3,
    explosionParticles := 0 }

/-! ## Claim C5: player clamping -/

/-- Claim C5: after every player-update step, for any input intent (any
horizontal velocity, which subsumes the keyboard and touch resolutions) and
from any starting position, the player's x lies within
[0, fieldWidth - playerWidth]. -/
theorem updatePlayer_clamped (x dx : ℚ) :
    0 ≤ updatePlayerX x dx ∧ updatePlayerX x dx ≤ canvasWidth - playerWidth := by
  simp only [updatePlayerX, canvasWidth, playerWidth]
  split_ifs <;> constructor <;> linarith

/-! ## Claim C2: the descent / removal scenario -/

/-- Counterexample to claim C2 as stated: starting from the scenario object
at y = 590 with speed 5, the first tick moves it to y = 595 and the second
tick moves it to y = 600 — but y = 600 does not strictly exceed the field
height of 600, so the object is NOT removed on that tick and the score
gain is 0, not 10 (src/main.js line 278 tests `y > canvas.height`). -/
theorem updateObstacles_y600_not_removed :
    (updateObstaclesList (updateObstaclesList [obsC2]).1).1 = [{ obsC2 with y := 600 }] ∧
    (updateObstaclesList (updateObstaclesList [obsC2]).1).1 ≠ [] ∧
    (updateObstaclesList (updateObstaclesList [obsC2]).1).2 = 0 := by
  norm_num [updateObstaclesList, stepObstacle, obsC2, canvasHeight]

/-- Claim C2 (amended): for the object at y = 590 with speed 5 on a field
of height 600, one tick moves it to y = 595 and it stays; the following
tick moves it to y = 600 and it STILL stays (600 does not exceed 600) with
no score change; the tick after that moves it to y = 605, strictly beyond
the field height, at which point it is removed and the score increases by
exactly 10. -/
theorem updateObstacles_y600_scenario :
    (updateObstaclesList [obsC2]).1 = [{ obsC2 with y := 595 }] ∧
    (updateObstaclesList [obsC2]).2 = 0 ∧
    (updateObstaclesList (updateObstaclesList [obsC2]).1).1 = [{ obsC2 with y := 600 }] ∧
    (updateObstaclesList (updateObstaclesList [obsC2]).1).2 = 0 ∧
    (updateObstaclesList (updateObstaclesList (updateObstaclesList [obsC2]).1).1).1 = [] ∧
    (updateObstaclesList (updateObstaclesList (updateObstaclesList [obsC2]).1).1).2 = 10 := by
  norm_num [updateObstaclesList, stepObstacle, obsC2, canvasHeight]

/-! ## Claim C7: the restart gate -/

/-- Claim C7: the restart control never accepts a reset outside the
terminal (game-over) state — if either the click listener or the touch
listener issues the reset signal, the game-over flag was set and the hit
was inside the restart rectangle; with the flag clear every hit is
rejected. -/
theorem restartGate_only_when_game_over (g : Bool) (cx cy : ℚ)
    (h : clickAcceptsReset g cx cy = true ∨ touchAcceptsReset g cx cy = true) :
    g = true ∧ insideRestartButton cx cy = true := by
  cases g with
  | false => rcases h with h | h <;> simp [clickAcceptsReset, touchAcceptsReset] at h
  | true =>
    refine ⟨rfl, ?_⟩
    rcases h with h | h <;>
      simpa [clickAcceptsReset, touchAcceptsReset] using h

/-- Witness for claim C7 at a concrete accepted hit: with the game over, a
click at (300, 400) lies inside the restart rectangle and is accepted. -/
theorem restartGate_only_when_game_over_witness :
    (true : Bool) = true ∧ insideRestartButton 300 400 = true :=
  restartGate_only_when_game_over true 300 400
    (Or.inl (by norm_num [clickAcceptsReset, insideRestartButton, buttonX, buttonY,
      buttonWidth, buttonHeight, canvasWidth, canvasHeight]))

/-! ## Obstacle invariants: helper lemmas -/

/-- A tick never changes an obstacle's identity fields (x, width, height,
variant flags, original speed, target scale, rotation are only read). -/
lemma stepObstacle_fixed (o : Obstacle) :
    (stepObstacle o).x = o.x ∧ (stepObstacle o).width = o.width ∧
    (stepObstacle o).height = o.height ∧ (stepObstacle o).isBonus = o.isBonus ∧
    (stepObstacle o).isGrowing = o.isGrowing ∧
    (stepObstacle o).originalSpeed = o.originalSpeed ∧
    (stepObstacle o).targetScale = o.targetScale := by
  obtain ⟨ox, oy, ow, oh, os, oos, ob, ot, og, osc, ots, orot⟩ := o
  simp only [stepObstacle]
  split_ifs <;> simp

/-- The transformed flag is one-way: no branch of the tick ever clears it. -/
lemma stepObstacle_transformed_mono (o : Obstacle) (h : o.hasTransformed = true) :
    (stepObstacle o).hasTransformed = true := by
  obtain ⟨ox, oy, ow, oh, os, oos, ob, ot, og, osc, ots, orot⟩ := o
  simp only [stepObstacle]
  split_ifs <;> simp_all

/-- The visual scale never decreases across one tick. -/
lemma stepObstacle_scale_mono (o : Obstacle) : o.scale ≤ (stepObstacle o).scale := by
  obtain ⟨ox, oy, ow, oh, os, oos, ob, ot, og, osc, ots, orot⟩ := o
  simp only [stepObstacle]
  split_ifs <;> simp_all <;> linarith

/-- The visual scale stays at or below the target scale across one tick
(the target scale itself is never written). -/
lemma stepObstacle_scale_le (o : Obstacle) (h : o.scale ≤ o.targetScale) :
    (stepObstacle o).scale ≤ (stepObstacle o).targetScale := by
  obtain ⟨ox, oy, ow, oh, os, oos, ob, ot, og, osc, ots, orot⟩ := o
  simp only [stepObstacle]
  split_ifs <;> simp_all

/-- A non-growing obstacle's scale is never written. -/
lemma stepObstacle_scale_of_not_growing (o : Obstacle) (h : o.isGrowing = false) :
    (stepObstacle o).scale = o.scale := by
  obtain ⟨ox, oy, ow, oh, os, oos, ob, ot, og, osc, ots, orot⟩ := o
  simp only [stepObstacle]
  split_ifs <;> simp_all

/-- A non-growing obstacle's speed is never written. -/
lemma stepObstacle_speed_of_not_growing (o : Obstacle) (h : o.isGrowing = false) :
    (stepObstacle o).speed = o.speed := by
  obtain ⟨ox, oy, ow, oh, os, oos, ob, ot, og, osc, ots, orot⟩ := o
  simp only [stepObstacle]
  split_ifs <;> simp_all

/-- Each tick advances y by exactly the obstacle's current speed. -/
lemma stepObstacle_y (o : Obstacle) : (stepObstacle o).y = o.y + o.speed := by
  obtain ⟨ox, oy, ow, oh, os, oos, ob, ot, og, osc, ots, orot⟩ := o
  simp only [stepObstacle]
  split_ifs <;> simp

/-- One tick preserves the transformed-iff-lower-half characterization for
a bonus (non-growing) obstacle that is still falling (speed nonnegative). -/
lemma step_bonus_iff (o : Obstacle) (hb : o.isBonus = true) (hg : o.isGrowing = false)
    (hs : 0 ≤ o.speed)
    (hiff : o.hasTransformed = true ↔ canvasHeight / 2 ≤ o.y) :
    (stepObstacle o).hasTransformed = true ↔ canvasHeight / 2 ≤ (stepObstacle o).y := by
  obtain ⟨ox, oy, ow, oh, os, oos, ob, ot, og, osc, ots, orot⟩ := o
  simp only at hb hg hs hiff
  subst hb; subst hg
  cases ot with
  | true =>
    have hy : canvasHeight / 2 ≤ oy := hiff.mp rfl
    simp only [stepObstacle]
    split_ifs <;> simp_all <;> linarith
  | false =>
    have hy : ¬ canvasHeight / 2 ≤ oy := fun h => by simpa using hiff.mpr h
    simp only [stepObstacle]
    split_ifs <;> simp_all

/-- Lifetime invariant of a Spawner-created bonus object (bonus objects are
never growing, src/main.js line 199): across all observation points the
variant flags and the speed are unchanged and the transformed flag holds
exactly when y has reached half the field height. -/
lemma bonus_track (x s rot : ℚ) (hs : 0 ≤ s) :
    ∀ n : ℕ,
      (stepsObstacle n (mkObstacle x s true false rot)).isBonus = true ∧
      (stepsObstacle n (mkObstacle x s true false rot)).isGrowing = false ∧
      (stepsObstacle n (mkObstacle x s true false rot)).speed = s ∧
      ((stepsObstacle n (mkObstacle x s true false rot)).hasTransformed = true ↔
        canvasHeight / 2 ≤ (stepsObstacle n (mkObstacle x s true false rot)).y)
  | 0 => by
    refine ⟨rfl, rfl, rfl, ?_⟩
    simp only [stepsObstacle, mkObstacle]
    norm_num [canvasHeight]
  | n + 1 => by
    obtain ⟨hb, hg, hsp, hiff⟩ := bonus_track x s rot hs n
    have hfix := stepObstacle_fixed (stepsObstacle n (mkObstacle x s true false rot))
    refine ⟨?_, ?_, ?_, ?_⟩
    · simpa only [stepsObstacle, hfix.2.2.2.1] using hb
    · simpa only [stepsObstacle, hfix.2.2.2.2.1] using hg
    · simpa only [stepsObstacle,
        stepObstacle_speed_of_not_growing _ hg] using hsp
    · exact step_bonus_iff _ hb hg (le_of_le_of_eq hs hsp.symm) hiff

/-- Claim C8: for a Spawner-created Bonus object falling at any
nonnegative speed, at every observation point the transformed flag holds
exactly when y ≥ fieldHeight / 2 (so it is false whenever y is above the
midline and true from the midline on), and the flag never reverts from one
observation point to the next. -/
theorem bonus_transformed_iff_lower_half (x s rot : ℚ) (hs : 0 ≤ s) (n : ℕ) :
    ((stepsObstacle n (mkObstacle x s true false rot)).hasTransformed = true ↔
      canvasHeight / 2 ≤ (stepsObstacle n (mkObstacle x s true false rot)).y) ∧
    ((stepsObstacle n (mkObstacle x s true false rot)).hasTransformed = true →
      (stepsObstacle (n + 1) (mkObstacle x s true false rot)).hasTransformed = true) := by
  refine ⟨(bonus_track x s rot hs n).2.2.2, fun h => ?_⟩
  simpa only [stepsObstacle] using
    stepObstacle_transformed_mono (stepsObstacle n (mkObstacle x s true false rot)) h

/-- Witness for claim C8 on a concrete bonus object (speed 5, 70 ticks,
where the object is far past the midline and transformed). -/
theorem bonus_transformed_iff_lower_half_witness :
    ((stepsObstacle 70 (mkObstacle 100 5 true false 0)).hasTransformed = true ↔
      canvasHeight / 2 ≤ (stepsObstacle 70 (mkObstacle 100 5 true false 0)).y) ∧
    ((stepsObstacle 70 (mkObstacle 100 5 true false 0)).hasTransformed = true →
      (stepsObstacle 71 (mkObstacle 100 5 true false 0)).hasTransformed = true) :=
  bonus_transformed_iff_lower_half 100 5 0 (by norm_num) 70

/-- Lifetime invariant of a Spawner-created growing object: the target
scale stays 4.5 and the scale stays between its initial 1.5 and the
target. -/
lemma growing_scale_track (x s rot : ℚ) :
    ∀ n : ℕ,
      3 / 2 ≤ (stepsObstacle n (mkObstacle x s false true rot)).scale ∧
      (stepsObstacle n (mkObstacle x s false true rot)).scale ≤
        (stepsObstacle n (mkObstacle x s false true rot)).targetScale ∧
      (stepsObstacle n (mkObstacle x s false true rot)).targetScale = 9 / 2
  | 0 => by
    refine ⟨le_refl _, ?_, rfl⟩
    simp only [stepsObstacle, mkObstacle]
    norm_num
  | n + 1 => by
    obtain ⟨hlo, hle, htgt⟩ := growing_scale_track x s rot n
    have hfix := stepObstacle_fixed (stepsObstacle n (mkObstacle x s false true rot))
    refine ⟨?_, ?_, ?_⟩
    · exact le_trans hlo
        (stepObstacle_scale_mono (stepsObstacle n (mkObstacle x s false true rot)))
    · exact stepObstacle_scale_le _ hle
    · simpa only [stepsObstacle, hfix.2.2.2.2.2.2] using htgt

/-- Claim C9: a Spawner-created Growing object starts at visual scale 1.5,
its scale never exceeds 4.5 at any observation point, and it never
decreases from one tick to the next. -/
theorem growing_scale_bounded_mono (x s rot : ℚ) (n : ℕ) :
    (mkObstacle x s false true rot).scale = 3 / 2 ∧
    (stepsObstacle n (mkObstacle x s false true rot)).scale ≤ 9 / 2 ∧
    (stepsObstacle n (mkObstacle x s false true rot)).scale ≤
      (stepsObstacle (n + 1) (mkObstacle x s false true rot)).scale := by
  obtain ⟨hlo, hle, htgt⟩ := growing_scale_track x s rot n
  refine ⟨rfl, htgt ▸ hle, ?_⟩
  simpa only [stepsObstacle] using
    stepObstacle_scale_mono (stepsObstacle n (mkObstacle x s false true rot))

/-- Lifetime invariant of a non-growing object (Normal or Bonus): the
growing flag, the scale, and the nominal dimensions never change. -/
lemma nonGrowing_track (x s rot : ℚ) (b : Bool) :
    ∀ n : ℕ,
      (stepsObstacle n (mkObstacle x s b false rot)).isGrowing = false ∧
      (stepsObstacle n (mkObstacle x s b false rot)).scale = 3 / 2 ∧
      (stepsObstacle n (mkObstacle x s b false rot)).width = bananaWidth ∧
      (stepsObstacle n (mkObstacle x s b false rot)).height = bananaHeight
  | 0 => ⟨rfl, rfl, rfl, rfl⟩
  | n + 1 => by
    obtain ⟨hg, hsc, hw, hh⟩ := nonGrowing_track x s rot b n
    have hfix := stepObstacle_fixed (stepsObstacle n (mkObstacle x s b false rot))
    refine ⟨?_, ?_, ?_, ?_⟩
    · simpa only [stepsObstacle, hfix.2.2.2.2.1] using hg
    · simpa only [stepsObstacle,
        stepObstacle_scale_of_not_growing _ hg] using hsc
    · simpa only [stepsObstacle, hfix.2.1] using hw
    · simpa only [stepsObstacle, hfix.2.2.1] using hh

/-- Evaluation of the obstacle hitbox at the permanent scale 1.5 of a
non-growing banana: scaling the 30 x 20 box by 1.5 around its center and
shrinking by the padding gives the rectangle (x + 0.5, y + 3, 29, 14). -/
lemma obstacleHitbox_at_default_scale (o : Obstacle) (hsc : o.scale = 3 / 2)
    (hw : o.width = bananaWidth) (hh : o.height = bananaHeight) :
    obstacleHitbox o = ⟨o.x + 1 / 2, o.y + 3, 29, 14⟩ := by
  simp only [obstacleHitbox, hsc, hw, hh, bananaWidth, bananaHeight, padding]
  norm_num
  constructor <;> ring

/-- Claim C10: an object that is not a Growing variant (Normal or Bonus,
`b` being the bonus roll) keeps visual scale exactly 1.5 for its entire
lifetime, so at every observation point its collision hitbox is the
1.5x-scaled, padding-shrunk rectangle (x + 0.5, y + 3, 29, 14) — not the
nominal-box hitbox (x + 8, y + 8, 14, 4) it would have at scale 1. -/
theorem nonGrowing_scale_and_hitbox (x s rot : ℚ) (b : Bool) (n : ℕ) :
    (stepsObstacle n (mkObstacle x s b false rot)).scale = 3 / 2 ∧
    obstacleHitbox (stepsObstacle n (mkObstacle x s b false rot)) =
      ⟨(stepsObstacle n (mkObstacle x s b false rot)).x + 1 / 2,
       (stepsObstacle n (mkObstacle x s b false rot)).y + 3, 29, 14⟩ ∧
    obstacleHitbox (stepsObstacle n (mkObstacle x s b false rot)) ≠
      ⟨(stepsObstacle n (mkObstacle x s b false rot)).x + padding,
       (stepsObstacle n (mkObstacle x s b false rot)).y + padding,
       (stepsObstacle n (mkObstacle x s b false rot)).width - padding * 2,
       (stepsObstacle n (mkObstacle x s b false rot)).height - padding * 2⟩ := by
  obtain ⟨hg, hsc, hw, hh⟩ := nonGrowing_track x s rot b n
  have hbox := obstacleHitbox_at_default_scale _ hsc hw hh
  refine ⟨hsc, hbox, ?_⟩
  rw [hbox, hw, hh, bananaWidth, bananaHeight, padding]
  intro hcontra
  rw [Rect.mk.injEq] at hcontra
  have := hcontra.2.2.1
  norm_num at this

/-! ## Collision scan lemmas -/

/-- Scanning past a block of non-overlapping obstacles changes nothing but
re-prepends them to the surviving array. -/
lemma checkCollision_append_clean (px py : ℚ) (B A : List Obstacle)
    (hB : ∀ o ∈ B, rectsOverlap (playerHitbox px py) (obstacleHitbox o) = false) :
    checkCollision px py (B ++ A) =
      { checkCollision px py A with
        obstacles := B ++ (checkCollision px py A).obstacles } := by
  induction B with
  | nil => simp
  | cons o B ih =>
    have ho := hB o (by simp)
    have ih1 := ih (fun o1 ho1 => hB o1 (by simp [ho1]))
    simp only [List.cons_append, checkCollision, ho, ih1]
    simp [ih1]

/-- The scan hitting a transformed bonus first: non-fatal, +200, flash,
sparkle burst at the banana's center, the banana removed, scan stopped. -/
lemma checkCollision_cons_bonus (px py : ℚ) (b : Obstacle) (A : List Obstacle)
    (hb : rectsOverlap (playerHitbox px py) (obstacleHitbox b) = true)
    (hbb : b.isBonus = true) (hbt : b.hasTransformed = true) :
    checkCollision px py (b :: A) =
      ⟨false, A, 200, true, some (b.x + b.width / 2, b.y + b.height / 2)⟩ := by
  simp [checkCollision, hb, hbb, hbt]

/-- The scan hitting any other overlapping obstacle first: fatal, array
left intact, no score, no flash, no sparkle. -/
lemma checkCollision_cons_fatal (px py : ℚ) (b : Obstacle) (A : List Obstacle)
    (hb : rectsOverlap (playerHitbox px py) (obstacleHitbox b) = true)
    (hnb : ¬(b.isBonus = true ∧ b.hasTransformed = true)) :
    checkCollision px py (b :: A) = ⟨true, b :: A, 0, false, none⟩ := by
  simp [checkCollision, hb, hnb]

/-! ## Claim C3: transformed bonus pickup -/

/-- Claim C3: when the first overlapping object found by the collision
scan (newest first; `B` is the scanned-before block, none of it
overlapping) is a transformed Bonus object, the tick's collision phase
adds exactly 200 to the score, leaves the terminal flag untouched, removes
exactly that object, starts the score flash, requests the sparkle burst at
the object's center, and scans no further objects — the rest of the array
(`A`) is left as is even if it contains overlapping objects. -/
theorem bonus_pickup_nonfatal (s : GameState) (B A : List Obstacle) (b : Obstacle)
    (hobs : s.obstacles = B ++ b :: A)
    (hB : ∀ o ∈ B, rectsOverlap (playerHitbox s.playerX playerY) (obstacleHitbox o) = false)
    (hb : rectsOverlap (playerHitbox s.playerX playerY) (obstacleHitbox b) = true)
    (hbb : b.isBonus = true) (hbt : b.hasTransformed = true) :
    (applyCollision s).gameOver = s.gameOver ∧
    (applyCollision s).score = s.score + 200 ∧
    (applyCollision s).obstacles = B ++ A ∧
    (applyCollision s).bonusParticles = s.bonusParticles + bonusParticleCount ∧
    (applyCollision s).scoreFlashTime = 20 ∧
    (checkCollision s.playerX playerY s.obstacles).sparkleCenter =
      some (b.x + b.width / 2, b.y + b.height / 2) := by
  have hcc : checkCollision s.playerX playerY s.obstacles =
      ⟨false, B ++ A, 200, true, some (b.x + b.width / 2, b.y + b.height / 2)⟩ := by
    rw [hobs, checkCollision_append_clean _ _ _ _ hB,
        checkCollision_cons_bonus _ _ _ _ hb hbb hbt]
  simp [applyCollision, hcc]

/-- Witness for claim C3: the concrete snapshot sC3 colliding with the
transformed bonus banana bC3. -/
theorem bonus_pickup_nonfatal_witness :
    (applyCollision sC3).gameOver = sC3.gameOver ∧
    (applyCollision sC3).score = sC3.score + 200 ∧
    (applyCollision sC3).obstacles = [] ∧
    (applyCollision sC3).bonusParticles = sC3.bonusParticles + bonusParticleCount ∧
    (applyCollision sC3).scoreFlashTime = 20 ∧
    (checkCollision sC3.playerX playerY sC3.obstacles).sparkleCenter =
      some (bC3.x + bC3.width / 2, bC3.y + bC3.height / 2) :=
  bonus_pickup_nonfatal sC3 [] [] bC3 rfl (by simp)
    (by norm_num [rectsOverlap, playerHitbox, obstacleHitbox, sC3, bC3, playerY,
      playerWidth, playerHeight, canvasHeight, padding])
    rfl rfl

/-! ## Claim C4: fatal collision -/

/-- Claim C4: when the first overlapping object found by the collision
scan is a Normal object, an untransformed Bonus, or a Growing object in
any state (anything but a transformed Bonus), the run transitions from
playing to the terminal state in that tick, the high score is set to
max(previous high score, current score), the score is unchanged, the
obstacle array is left intact, and the explosion burst is created. -/
theorem fatal_collision_terminal (s : GameState) (B A : List Obstacle) (b : Obstacle)
    (hgo : s.gameOver = false)
    (hobs : s.obstacles = B ++ b :: A)
    (hB : ∀ o ∈ B, rectsOverlap (playerHitbox s.playerX playerY) (obstacleHitbox o) = false)
    (hb : rectsOverlap (playerHitbox s.playerX playerY) (obstacleHitbox b) = true)
    (hnb : ¬(b.isBonus = true ∧ b.hasTransformed = true)) :
    (applyCollision s).gameOver = true ∧
    (applyCollision s).highScore = max s.highScore s.score ∧
    (applyCollision s).obstacles = s.obstacles ∧
    (applyCollision s).score = s.score ∧
    (applyCollision s).explosionParticles =
      s.explosionParticles + (explosionParticleCount + explosionSmokeCount) := by
  have hcc : checkCollision s.playerX playerY s.obstacles =
      ⟨true, B ++ b :: A, 0, false, none⟩ := by
    rw [hobs, checkCollision_append_clean _ _ _ _ hB,
        checkCollision_cons_fatal _ _ _ _ hb hnb]
  refine ⟨by simp [applyCollision, hcc], ?_, by simp [applyCollision, hcc],
    by simp [applyCollision, hcc], by simp [applyCollision, hcc]⟩
  simp only [applyCollision, hcc]
  norm_num
  split_ifs with h <;> omega

/-- Witness for claim C4: the concrete snapshot sC4 colliding with the
untransformed bonus banana bC4 (score 430 beats the stored high 120). -/
theorem fatal_collision_terminal_witness :
    (applyCollision sC4).gameOver = true ∧
    (applyCollision sC4).highScore = max sC4.highScore sC4.score ∧
    (applyCollision sC4).obstacles = sC4.obstacles ∧
    (applyCollision sC4).score = sC4.score ∧
    (applyCollision sC4).explosionParticles =
      sC4.explosionParticles + (explosionParticleCount + explosionSmokeCount) :=
  fatal_collision_terminal sC4 [] [] bC4 rfl rfl (by simp)
    (by norm_num [rectsOverlap, playerHitbox, obstacleHitbox, sC4, bC4, playerY,
      playerWidth, playerHeight, canvasHeight, padding])
    (by simp [bC4])

/-! ## Claim C6: the reset scenario -/

/-- Claim C6: from a playing state with score 540 and high score 300, a
fatal collision commits high score 540 while entering the terminal state,
and performing the reset from that terminal state yields score 0, empty
obstacle and particle collections, high score still 540, the player state
back at its initial values, and the run back in the playing state. -/
theorem reset_scenario (s : GameState) (B A : List Obstacle) (b : Obstacle)
    (hscore : s.score = 540) (hhigh : s.highScore = 300) (hgo : s.gameOver = false)
    (hobs : s.obstacles = B ++ b :: A)
    (hB : ∀ o ∈ B, rectsOverlap (playerHitbox s.playerX playerY) (obstacleHitbox o) = false)
    (hb : rectsOverlap (playerHitbox s.playerX playerY) (obstacleHitbox b) = true)
    (hnb : ¬(b.isBonus = true ∧ b.hasTransformed = true)) :
    (applyCollision s).gameOver = true ∧
    (applyCollision s).highScore = 540 ∧
    resetGame (applyCollision s) =
      { playerX := canvasWidth / 2 - 35, playerDx := 0, animationFrame := 0,
        obstacles := [], frameCount := 0, gameOver := false,
        showGameOverText := false, score := 0, highScore := 540,
        scoreFlashTime := 0, bonusParticles := 0, explosionParticles := 0 } := by
  have hcc : checkCollision s.playerX playerY s.obstacles =
      ⟨true, B ++ b :: A, 0, false, none⟩ := by
    rw [hobs, checkCollision_append_clean _ _ _ _ hB,
        checkCollision_cons_fatal _ _ _ _ hb hnb]
  have h2 : (applyCollision s).highScore = 540 := by
    simp [applyCollision, hcc, hscore, hhigh]
  refine ⟨by simp [applyCollision, hcc], h2, ?_⟩
  simp [resetGame, GameState.mk.injEq, h2]

/-- Witness for claim C6: the concrete snapshot sC6 (score 540, high 300)
colliding with the normal banana bC6 and then being reset. -/
theorem reset_scenario_witness :
    (applyCollision sC6).gameOver = true ∧
    (applyCollision sC6).highScore = 540 ∧
    resetGame (applyCollision sC6) =
      { playerX := canvasWidth / 2 - 35, playerDx := 0, animationFrame := 0,
        obstacles := [], frameCount := 0, gameOver := false,
        showGameOverText := false, score := 0, highScore := 540,
        scoreFlashTime := 0, bonusParticles := 0, explosionParticles := 0 } :=
  reset_scenario sC6 [] [] bC6 rfl rfl rfl rfl (by simp)
    (by norm_num [rectsOverlap, playerHitbox, obstacleHitbox, sC6, bC6, playerY,
      playerWidth, playerHeight, canvasHeight, padding])
    (by simp [bC6])

/-! ## Spawner lemmas -/

/-- The first validity check of the attempt loop forces an accepted
candidate apart from every already-accepted position. -/
lemma candidateOk_apart (x : ℚ) (pos : SpawnPos) (h : candidateOk x pos = true) :
    apartPos pos ⟨x, bananaWidth⟩ := by
  unfold candidateOk at h
  split_ifs at h with h1 h2
  rcases le_or_lt (pos.x + pos.width) x with hx | hx
  · exact Or.inl hx
  · right
    push_neg at h1
    simpa [apartPos] using h1 hx

/-- A successful attempt loop returns one of its drawn candidates, valid
against every already-accepted position. -/
lemma placeOne_sound (ps : List SpawnPos) (att : List ℚ) (x : ℚ)
    (h : placeOne ps att = some x) :
    x ∈ att ∧ ∀ pos ∈ ps, candidateOk x pos = true := by
  induction att with
  | nil => simp [placeOne] at h
  | cons a rest ih =>
    rw [placeOne] at h
    split_ifs at h with hall
    · obtain rfl : a = x := by simpa using h
      exact ⟨by simp, by simpa [List.all_eq_true] using hall⟩
    · obtain ⟨hmem, hvalid⟩ := ih h
      exact ⟨by simp [hmem], hvalid⟩

/-- Soundness of the batch placement loop: starting from well-formed,
pairwise-apart positions, it only ever adds well-formed positions that are
apart from everything before them, and adds at most one per attempt
list. -/
lemma placeBatch_sound (batches : List (List ℚ)) :
    ∀ ps : List SpawnPos,
      (∀ att ∈ batches, ∀ x ∈ att, 0 ≤ x ∧ x ≤ canvasWidth - bananaWidth) →
      (∀ p ∈ ps, goodPos p) → ps.Pairwise apartPos →
      (∀ p ∈ placeBatch ps batches, goodPos p) ∧
      (placeBatch ps batches).Pairwise apartPos ∧
      (placeBatch ps batches).length ≤ ps.length + batches.length := by
  induction batches with
  | nil => exact fun ps _ hgood hpair => ⟨hgood, hpair, by simp [placeBatch]⟩
  | cons att rest ih =>
    intro ps hdraw hgood hpair
    have hdraw1 : ∀ a ∈ rest, ∀ x ∈ a, 0 ≤ x ∧ x ≤ canvasWidth - bananaWidth :=
      fun a ha => hdraw a (by simp [ha])
    rcases hp : placeOne ps att with _ | x
    · have he : placeBatch ps (att :: rest) = placeBatch ps rest := by
        rw [placeBatch, hp]
      rw [he]
      obtain ⟨g1, g2, g3⟩ := ih ps hdraw1 hgood hpair
      exact ⟨g1, g2, by simp only [List.length_cons]; omega⟩
    · have he : placeBatch ps (att :: rest) =
          placeBatch (ps ++ [⟨x, bananaWidth⟩]) rest := by
        rw [placeBatch, hp]
      rw [he]
      obtain ⟨hmem, hvalid⟩ := placeOne_sound ps att x hp
      have hx := hdraw att (by simp) x hmem
      have hgood1 : ∀ p ∈ ps ++ [(⟨x, bananaWidth⟩ : SpawnPos)], goodPos p := by
        intro p hpmem
        rcases List.mem_append.mp hpmem with hpm | hpm
        · exact hgood p hpm
        · obtain rfl : p = ⟨x, bananaWidth⟩ := by simpa using hpm
          exact ⟨rfl, hx.1, hx.2⟩
      have hpair1 : (ps ++ [(⟨x, bananaWidth⟩ : SpawnPos)]).Pairwise apartPos := by
        rw [List.pairwise_append]
        refine ⟨hpair, by simp, ?_⟩
        intro p hpm q hqm
        obtain rfl : q = ⟨x, bananaWidth⟩ := by simpa using hqm
        exact candidateOk_apart x p (hvalid p hpm)
      obtain ⟨g1, g2, g3⟩ := ih (ps ++ [⟨x, bananaWidth⟩]) hdraw1 hgood1 hpair1
      refine ⟨g1, g2, ?_⟩
      have hlen : (ps ++ [(⟨x, bananaWidth⟩ : SpawnPos)]).length = ps.length + 1 := by
        simp
      rw [hlen] at g3
      simp only [List.length_cons]
      omega

/-- The comparison sort on a two-element batch. -/
lemma sortByX_pair (p q : SpawnPos) :
    sortByX [p, q] = if p.x ≤ q.x then [p, q] else [q, p] := by
  simp [sortByX, insertByX]

/-- The gap verification on a two-position batch, spelled out: left edge,
middle gap, or right edge. -/
lemma hasValidGap_pair (u v : SpawnPos) :
    hasValidGap [u, v] = true ↔
      (minGap ≤ u.x ∨ minGap ≤ v.x - (u.x + u.width) ∨
       minGap ≤ canvasWidth - (v.x + v.width)) := by
  simp [hasValidGap, anyMiddleGap, or_assoc]

/-- Pigeonhole core of the guaranteed-gap property: two disjoint
banana-width positions inside an 800-wide field always leave one of the
three spans (left edge, middle, right edge) at least 70 wide, because the
three spans total 740 > 3 * 70. -/
lemma pair_gap_cases (u v : SpawnPos) (hu : goodPos u) (hv : goodPos v)
    (huv : u.x + u.width ≤ v.x) :
    minGap ≤ u.x ∨ minGap ≤ v.x - (u.x + u.width) ∨
      minGap ≤ canvasWidth - (v.x + v.width) := by
  obtain ⟨huw, hu0, hu7⟩ := hu
  obtain ⟨hvw, hv0, hv7⟩ := hv
  rw [bananaWidth] at huw hvw
  rw [canvasWidth, bananaWidth] at hu7 hv7
  norm_num at hu7 hv7
  by_contra hcon
  push_neg at hcon
  obtain ⟨c1, c2, c3⟩ := hcon
  rw [minGap] at c1 c2 c3
  rw [canvasWidth] at c3
  linarith

/-- From the pigeonhole cases, a concrete free span avoiding both
positions of a two-position batch. -/
lemma pair_span (u v : SpawnPos) (hu : goodPos u) (hv : goodPos v)
    (huv : u.x + u.width ≤ v.x) :
    ∃ a : ℚ, 0 ≤ a ∧ a + minGap ≤ canvasWidth ∧
      (a + minGap ≤ u.x ∨ u.x + u.width ≤ a) ∧
      (a + minGap ≤ v.x ∨ v.x + v.width ≤ a) := by
  have hcase := pair_gap_cases u v hu hv huv
  obtain ⟨huw, hu0, hu7⟩ := hu
  obtain ⟨hvw, hv0, hv7⟩ := hv
  rw [bananaWidth] at huw hvw
  rw [canvasWidth, bananaWidth] at hu7 hv7
  norm_num at hu7 hv7
  rw [minGap] at hcase ⊢
  rw [canvasWidth] at hcase ⊢
  rcases hcase with h | h | h
  · exact ⟨0, by norm_num, by norm_num, Or.inl (by linarith), Or.inl (by linarith)⟩
  · exact ⟨u.x + u.width, by linarith, by linarith, Or.inr (le_refl _),
      Or.inl (by linarith)⟩
  · exact ⟨v.x + v.width, by linarith, by linarith, Or.inr (by linarith),
      Or.inr (le_refl _)⟩

/-- When the sorted batch passes the gap verification, the correction step
removes nothing. -/
lemma spawnBatch_of_gap (batches : List (List ℚ)) (ri : ℕ)
    (h : hasValidGap (sortByX (placeBatch [] batches)) = true) :
    spawnBatch batches ri = placeBatch [] batches := by
  simp only [spawnBatch]
  split_ifs with h0 h1
  · exact absurd h (by simp [h1.1])
  · rfl
  · rfl

/-- The correction step also removes nothing from a batch of at most one
position. -/
lemma spawnBatch_small (batches : List (List ℚ)) (ri : ℕ)
    (h : (placeBatch [] batches).length ≤ 1) :
    spawnBatch batches ri = placeBatch [] batches := by
  simp only [spawnBatch]
  split_ifs with h0 h1
  · exact absurd h1.2 (by omega)
  · rfl
  · rfl

/-! ## Claim C1: the Spawner always leaves a traversable gap -/

/-- Claim C1: for every Spawner invocation that places two or more
objects (the invocation requests at most two bananas, each candidate x
drawn inside [0, fieldWidth - bananaWidth]), after the guaranteed-gap
correction step there is a horizontal span of width minGap = 70 (the
player's width) inside the field that is free of every footprint placed in
that batch. -/
theorem spawnBatch_leaves_gap (batches : List (List ℚ)) (removeIndex : ℕ)
    (hnum : batches.length ≤ 2)
    (hdraw : ∀ att ∈ batches, ∀ x ∈ att, 0 ≤ x ∧ x ≤ canvasWidth - bananaWidth)
    (htwo : 2 ≤ (spawnBatch batches removeIndex).length) :
    ∃ a : ℚ, 0 ≤ a ∧ a + minGap ≤ canvasWidth ∧
      ∀ p ∈ spawnBatch batches removeIndex, a + minGap ≤ p.x ∨ p.x + p.width ≤ a := by
  obtain ⟨hgood, hpair, hlen⟩ :=
    placeBatch_sound batches [] hdraw (by simp) List.Pairwise.nil
  simp only [List.length_nil, Nat.zero_add] at hlen
  by_cases hsmall : (placeBatch [] batches).length ≤ 1
  · rw [spawnBatch_small batches removeIndex hsmall] at htwo
    omega
  · have hlen2 : (placeBatch [] batches).length = 2 := by omega
    obtain ⟨p, q, hpq⟩ := List.length_eq_two.mp hlen2
    rw [hpq] at hgood hpair
    have hgp : goodPos p := hgood p (by simp)
    have hgq : goodPos q := hgood q (by simp)
    have hap : apartPos p q := by
      rw [List.pairwise_cons] at hpair
      exact hpair.1 q (by simp)
    rcases hap with hside | hside
    · have hple : p.x ≤ q.x := by
        have hw := hgp.1
        rw [bananaWidth] at hw
        linarith
      have hvg : hasValidGap (sortByX (placeBatch [] batches)) = true := by
        rw [hpq, sortByX_pair, if_pos hple, hasValidGap_pair]
        exact pair_gap_cases p q hgp hgq hside
      rw [spawnBatch_of_gap batches removeIndex hvg, hpq]
      obtain ⟨a, ha0, haW, hau, hav⟩ := pair_span p q hgp hgq hside
      refine ⟨a, ha0, haW, ?_⟩
      intro r hr
      rcases (by simpa using hr : r = p ∨ r = q) with rfl | rfl
      · exact hau
      · exact hav
    · have hqlt : ¬ p.x ≤ q.x := by
        have hw := hgq.1
        rw [bananaWidth] at hw
        push_neg
        linarith
      have hvg : hasValidGap (sortByX (placeBatch [] batches)) = true := by
        rw [hpq, sortByX_pair, if_neg hqlt, hasValidGap_pair]
        exact pair_gap_cases q p hgq hgp hside
      rw [spawnBatch_of_gap batches removeIndex hvg, hpq]
      obtain ⟨a, ha0, haW, hau, hav⟩ := pair_span q p hgq hgp hside
      refine ⟨a, ha0, haW, ?_⟩
      intro r hr
      rcases (by simpa using hr : r = p ∨ r = q) with rfl | rfl
      · exact hav
      · exact hau

/-- Witness for claim C1: a concrete invocation placing two bananas, at
x = 100 and x = 400, both accepted on their first attempt. -/
theorem spawnBatch_leaves_gap_witness :
    ∃ a : ℚ, 0 ≤ a ∧ a + minGap ≤ canvasWidth ∧
      ∀ p ∈ spawnBatch [[100], [400]] 0, a + minGap ≤ p.x ∨ p.x + p.width ≤ a :=
  spawnBatch_leaves_gap [[100], [400]] 0 (by norm_num)
    (by norm_num [canvasWidth, bananaWidth])
    (by norm_num [spawnBatch, placeBatch, placeOne, candidateOk, sortByX, insertByX,
      hasValidGap, anyMiddleGap, minGap, canvasWidth, bananaWidth])
